import Mathlib

/-!
Verification development for the Windscribe port-forwarding script
(`windscribe_port.py`).

The script drives one acquisition-and-propagation cycle:
`WindscribePortManager.run` obtains an ephemeral port from the provider's
web portal (`get_windscribe_port`), pushes it to qBittorrent
(`update_qbittorrent_port`), rewrites a docker `.env` file and restarts a
fixed set of containers (`update_docker_network`,
`wait_for_healthy_docker_container`), and reports the outcome through a
Discord webhook (`send_discord_notification`).  `main` constructs the
manager (whose `__init__` loads and validates the environment via
`_load_config`) and exits with `run`'s return value.

The embedding below models:
  * the Python string primitives the script relies on (`str.isdigit`,
    `str.strip`, `int(...)` parsing, text-mode `readlines` with universal
    newlines), restricted to characters below U+0100 (Latin-1); the
    Unicode tables beyond that range are outside the model.  Within
    Latin-1 the digit set of `str.isdigit` is exactly 0-9 together with
    the superscripts U+00B9, U+00B2, U+00B3, the whitespace set of
    `str.strip` is {9,10,11,12,13,28,29,30,31,32,133,160}, and the digit
    set accepted by `int` is 0-9 only.
  * the control flow of every method as a pure function over an explicit
    "world" record describing the behaviour of the external collaborators
    (browser, qBittorrent API, filesystem, docker, webhook).  Each
    function returns its result (`Except` for code paths that raise),
    the updated `status_steps` ledger, and the list of externally visible
    actions it performed, in order.
  * exception messages as plain strings; `str(...)` renderings that
    Python decorates with quotes are modelled without the quote marks.

Time is idealised: `wait_for_healthy_docker_container`'s clock advances
only by its `time.sleep(5)` calls, so the container status is a function
of elapsed time and polls happen at 0, 5, 10, ....
-/

/-- Python `str.isdigit` on a single character, for code points below
U+0100: ASCII decimal digits plus the superscript digits U+00B9 (¹),
U+00B2 (²), U+00B3 (³), which have Unicode `Numeric_Type=Digit`. -/
def pyCharIsDigit (c : Char) : Bool :=
  c.isDigit || c.val = 178 || c.val = 179 || c.val = 185

/-- Python `str.isdigit`: true iff the string is non-empty and every
character is a digit character (source line 218: `port.isdigit()`). -/
def pyIsDigit (s : String) : Bool :=
  !s.data.isEmpty && s.data.all pyCharIsDigit

/-- Modelled from the spec claim's words, for comparison with `pyIsDigit`:
"the text is non-empty and composed solely of decimal digits"
(decimal digits are the ASCII characters 0-9). -/
def specDecimalAccept (s : String) : Bool :=
  !s.data.isEmpty && s.data.all Char.isDigit

/-- Python `str.isspace` on a single character, for code points below
U+0100 (the character class removed by `str.strip()`). -/
def pyCharIsSpace (c : Char) : Bool :=
  c.val = 9 || c.val = 10 || c.val = 11 || c.val = 12 || c.val = 13 ||
  c.val = 28 || c.val = 29 || c.val = 30 || c.val = 31 || c.val = 32 ||
  c.val = 133 || c.val = 160

/-- Python `str.strip()` on a character list: drop whitespace from both
ends. -/
def pyStripL (l : List Char) : List Char :=
  ((l.dropWhile pyCharIsSpace).reverse.dropWhile pyCharIsSpace).reverse

/-- Python `str.strip()` (source line 215: `port_element.text.strip()`). -/
def pyStrip (s : String) : String :=
  String.mk (pyStripL s.data)

/-- Body of a base-10 integer literal as accepted by Python `int`:
ASCII digits, with single underscores allowed between digits. -/
def intBodyOk : List Char → Bool
  | [] => false
  | [c] => c.isDigit
  | c :: d :: cs =>
    c.isDigit && (if d = '_' then intBodyOk cs else intBodyOk (d :: cs))

/-- Numeric value of a digit-and-underscore body. -/
def digitsVal (l : List Char) : Nat :=
  l.foldl (fun a c => if c = '_' then a else a * 10 + (c.toNat - 48)) 0

/-- Python `int(s)` for base 10, on strings of characters below U+0100:
strip whitespace, allow one sign, then require a digit body.  Returns
`none` where Python raises `ValueError` (source line 290: `int(port)`). -/
def pyIntParse (s : String) : Option Int :=
  match pyStripL s.data with
  | '+' :: rest => if intBodyOk rest then some (digitsVal rest) else none
  | '-' :: rest => if intBodyOk rest then some (-(digitsVal rest : Int)) else none
  | rest => if intBodyOk rest then some (digitsVal rest) else none

/-- Universal-newline decoding performed by text-mode `open(path, 'r')`:
CRLF and lone CR both become LF. -/
def nlTranslate : List Char → List Char
  | [] => []
  | [c] => if c = '\r' then ['\n'] else [c]
  | c :: d :: cs =>
    if c = '\r' then
      if d = '\n' then '\n' :: nlTranslate cs
      else '\n' :: nlTranslate (d :: cs)
    else c :: nlTranslate (d :: cs)

/-- `f.readlines()` on already newline-translated text: split after every
LF, keeping the LF; a final unterminated chunk is its own line. -/
def readlinesL : List Char → List (List Char)
  | [] => []
  | c :: cs =>
    if c = '\n' then ['\n'] :: readlinesL cs
    else
      match readlinesL cs with
      | [] => [[c]]
      | l :: ls => (c :: l) :: ls

/-- Concatenation of lines back into file text (the `f.write` loop). -/
def joinL : List (List Char) → List Char
  | [] => []
  | l :: ls => l ++ joinL ls

/-- The fixed target key of `update_docker_network`'s rewrite
(source line 354: `line.startswith('FIREWALL_VPN_INPUT_PORTS=')`). -/
def targetKeyL : List Char := "FIREWALL_VPN_INPUT_PORTS=".data

/-- One iteration of the rewrite loop (source lines 353-357): a line that
starts with the target key is replaced by the key, the new port and a
newline; any other line is written back unchanged. -/
def updLineL (port l : List Char) : List Char :=
  if targetKeyL.isPrefixOf l then targetKeyL ++ port ++ ['\n'] else l

/-- The whole `.env` rewrite of `update_docker_network` (read all lines,
write each line through `updLineL`), at the character-list level. -/
def updateDockerEnvL (port content : List Char) : List Char :=
  joinL ((readlinesL (nlTranslate content)).map (updLineL port))

/-- `updLineL` on strings. -/
def updLineS (port line : String) : String :=
  String.mk (updLineL port.data line.data)

/-- Text-mode `readlines` on strings. -/
def readlinesS (s : String) : List String :=
  (readlinesL (nlTranslate s.data)).map String.mk

/-- The `.env` rewrite of `update_docker_network` on strings. -/
def updateDockerEnv (port content : String) : String :=
  String.mk (updateDockerEnvL port.data content.data)

/-- A well-formed line: non-empty, with no LF before its last character. -/
def lineWF (l : List Char) : Prop :=
  l ≠ [] ∧ ∀ c ∈ l.dropLast, c ≠ '\n'

/-- A well-formed line list (`readlines` output shape): every line is
well-formed and every line except possibly the last ends with LF. -/
def chainWF : List (List Char) → Prop
  | [] => True
  | [l] => lineWF l
  | l :: ls => lineWF l ∧ l.getLast? = some '\n' ∧ chainWF ls

/-- The `status_steps` ledger: an insertion-ordered mapping from step name
to its mark, exactly as the Python `dict` the script mutates. -/
abbrev Ledger := List (String × String)

/-- Python `d[k] = v` on an insertion-ordered dict: overwrite the entry in
place when the key is present, append it otherwise. -/
def pySetItem : Ledger → String → String → Ledger
  | [], k, v => [(k, v)]
  | (k', v') :: rest, k, v =>
    if k' = k then (k, v) :: rest else (k', v') :: pySetItem rest k v

/-- Python `d.get(k)`: first value stored under the key, if any. -/
def pyLookup : Ledger → String → Option String
  | [], _ => none
  | (k', v') :: rest, k => if k' = k then some v' else pyLookup rest k

/-- The `status_steps` dict as `_load_config` builds it (source lines
77-81): two base steps always, plus the two docker steps exactly when
`docker_path` is configured, every entry starting at the failure mark. -/
def initialLedger (dockerConfigured : Bool) : Ledger :=
  [("new windscribe port", "❌"), ("update qbittorrent port", "❌")] ++
    (if dockerConfigured then
      [("update docker env", "❌"), ("restart docker containers", "❌")]
    else [])

/-- The process environment as seen through `os.getenv`: each variable is
either absent or holds a string (possibly empty). -/
structure Env where
  ws_username : Option String
  ws_password : Option String
  qbt_username : Option String
  qbt_password : Option String
  qbt_host : Option String
  qbt_port : Option String
  discord_webhook_url : Option String
  docker_path : Option String

/-- Python truthiness of an `os.getenv` result: `None` and the empty
string are falsy (`if not value`, `if os.getenv(...)`). -/
def envTruthy : Option String → Bool
  | none => false
  | some s => !(s = "")

/-- The `required_vars` list of `_load_config`, in source order. -/
def requiredVarNames : List String :=
  ["ws_username", "ws_password", "qbt_username", "qbt_password",
   "qbt_host", "qbt_port"]

/-- `os.getenv` on the modelled environment. -/
def envGet (e : Env) (name : String) : Option String :=
  if name = "ws_username" then e.ws_username
  else if name = "ws_password" then e.ws_password
  else if name = "qbt_username" then e.qbt_username
  else if name = "qbt_password" then e.qbt_password
  else if name = "qbt_host" then e.qbt_host
  else if name = "qbt_port" then e.qbt_port
  else if name = "discord_webhook_url" then e.discord_webhook_url
  else if name = "docker_path" then e.docker_path
  else none

/-- The `missing_vars` list accumulated by `_load_config`'s loop: required
variables whose value is falsy, in `required_vars` order. -/
def missingVars (e : Env) : List String :=
  requiredVarNames.filter (fun n => !envTruthy (envGet e n))

/-- The validated configuration `_load_config` returns.  Optional keys are
present exactly when their environment value is truthy. -/
structure Config where
  ws_username : String
  ws_password : String
  qbt_username : String
  qbt_password : String
  qbt_host : String
  qbt_port : String
  discord_webhook_url : Option String
  docker_path : Option String

/-- `_load_config` (source lines 49-82): raise `ConfigurationError` naming
the missing required variables when any required value is falsy; otherwise
return the configuration together with the freshly initialised
`status_steps` ledger. -/
def loadConfig (e : Env) : Except String (Config × Ledger) :=
  let missing := missingVars e
  if missing.isEmpty then
    Except.ok
      ({ ws_username := (envGet e "ws_username").getD ""
         ws_password := (envGet e "ws_password").getD ""
         qbt_username := (envGet e "qbt_username").getD ""
         qbt_password := (envGet e "qbt_password").getD ""
         qbt_host := (envGet e "qbt_host").getD ""
         qbt_port := (envGet e "qbt_port").getD ""
         discord_webhook_url :=
           if envTruthy e.discord_webhook_url then e.discord_webhook_url
           else none
         docker_path :=
           if envTruthy e.docker_path then e.docker_path else none },
       initialLedger (envTruthy e.docker_path))
  else
    Except.error
      ("Missing required environment variables: " ++
        String.intercalate ", " missing)

/-- Externally visible actions of one run, in the order they happen:
browser interactions, qBittorrent API calls, docker operations and
webhook posts. -/
inductive Event where
  | openLogin
  | clickCaptcha
  | submitLogin
  | openPortPage
  | clickDelete
  | clickRequest
  | readPort
  | qbtLogin
  | qbtSetListenPort (p : Int)
  | dockerEnvWrite (content : String)
  | dockerRestart
  | healthCheck (container : String)
  | discordPost (message : String) (isError : Bool)
deriving DecidableEq, Repr

/-- Behaviour of the browser collaborators during `get_windscribe_port`:
which waited-for UI conditions come true and what texts the page shows. -/
structure AcqWorld where
  /-- the `username` field appears within the 10s challenge probe
  (line 147), i.e. no Cloudflare challenge blocks the page -/
  userFieldOnLoad : Bool
  /-- after `uc_gui_click_captcha`, the `username` field appears -/
  userFieldAfterBypass : Bool
  /-- the post-login marker `menu-account` appears (line 177) -/
  loginOk : Bool
  /-- on login timeout, the inline `loginform` error element appears -/
  loginErrorElemPresent : Bool
  /-- text of that inline error element -/
  loginErrorText : String
  /-- `request-port-cont` renders and its button becomes clickable -/
  portPageLoads : Bool
  /-- label of the port-management button (line 193) -/
  buttonText : String
  /-- after clicking delete, the `epf-input` element appears (line 202) -/
  deleteInputAppears : Bool
  /-- the port-value display element populates (line 214) -/
  portElemAppears : Bool
  /-- raw text of the port-value display element -/
  portText : String

/-- Opaque `str(...)` of a selenium `TimeoutException`, interpolated into
the challenge-failure message; its exact content is environment noise. -/
def timeoutExcText : String := ""

/-- Tail of `get_windscribe_port` from the click on
`Request Matching Port` onwards (lines 210-223): wait for the port
display, strip its text, validate with `str.isdigit`, mark the ledger
step on success. -/
def finishRequest (w : AcqWorld) (ev : List Event) (ledger : Ledger) :
    Except String String × Ledger × List Event :=
  if !w.portElemAppears then
    (Except.error "Timeout while acquiring Windscribe port", ledger, ev)
  else
    let port := pyStrip w.portText
    if pyIsDigit port then
      (Except.ok port, pySetItem ledger "new windscribe port" "✅",
       ev ++ [Event.readPort])
    else
      (Except.error ("Invalid port received: " ++ port), ledger,
       ev ++ [Event.readPort])

/-- `get_windscribe_port` (source lines 124-248): challenge detection and
bypass, login, navigation to the ephemeral-port page, delete-then-request
lifecycle reconciliation, port extraction and validation.  Returns the
raised exception's message (as `run` will see it) or the validated port
string, plus the updated ledger and the browser actions performed.  The
`finally` block (screenshot and browser shutdown) has no observable
effect on this state and is not modelled. -/
def getWindscribePort (w : AcqWorld) (ledger : Ledger) :
    Except String String × Ledger × List Event :=
  let ev0 := [Event.openLogin]
  if !w.userFieldOnLoad && !w.userFieldAfterBypass then
    (Except.error ("Failed to pass Cloudflare challenge: " ++ timeoutExcText),
     ledger, ev0 ++ [Event.clickCaptcha])
  else
    let ev1 := ev0 ++ (if w.userFieldOnLoad then [] else [Event.clickCaptcha])
    let ev2 := ev1 ++ [Event.submitLogin]
    if !w.loginOk then
      if w.loginErrorElemPresent then
        (Except.error ("Login failed because " ++ w.loginErrorText), ledger, ev2)
      else
        (Except.error "Timeout while acquiring Windscribe port", ledger, ev2)
    else
      let ev3 := ev2 ++ [Event.openPortPage]
      if !w.portPageLoads then
        (Except.error "Timeout while acquiring Windscribe port", ledger, ev3)
      else if w.buttonText = "Delete Port" then
        let ev4 := ev3 ++ [Event.clickDelete]
        if !w.deleteInputAppears then
          (Except.error "Failed to delete existing port", ledger, ev4)
        else finishRequest w (ev4 ++ [Event.clickRequest]) ledger
      else finishRequest w (ev3 ++ [Event.clickRequest]) ledger

/-- Behaviour of the qBittorrent API collaborator: whether
`auth_log_in` succeeds (connection failures are folded into this flag)
and the rejection text when it does not. -/
structure QbtWorld where
  loginOk : Bool
  loginFailText : String

/-- `update_qbittorrent_port` (source lines 251-300): authenticate, then
set `listen_port` to `int(port)`.  A `LoginFailed` is re-raised as
`Exception("qBittorrent login failed: ...")`; the outer handler logs and
re-raises the original exception, so `run` sees these messages.  Python's
`ValueError` message for a failed `int` is modelled without its quote
decoration. -/
def updateQbittorrentPort (port : String) (w : QbtWorld) (ledger : Ledger) :
    Except String Unit × Ledger × List Event :=
  let ev := [Event.qbtLogin]
  if !w.loginOk then
    (Except.error ("qBittorrent login failed: " ++ w.loginFailText), ledger, ev)
  else
    match pyIntParse port with
    | none =>
      (Except.error ("invalid literal for int() with base 10: " ++ port),
       ledger, ev)
    | some v =>
      (Except.ok (), pySetItem ledger "update qbittorrent port" "✅",
       ev ++ [Event.qbtSetListenPort v])

/-- Behaviour of the filesystem and docker collaborators: the `.env`
content (`none` models a failing read) and each container's
health-status string as a function of elapsed time since its poll loop
started. -/
structure DockerWorld where
  envContent : Option String
  health : String → Nat → String

/-- Opaque `str(...)` of the `OSError` raised by a failing `.env` read. -/
def fileErrText : String := ""

/-- The polling loop of `wait_for_healthy_docker_container` (source lines
390-407), with an explicit iteration budget.  Each iteration runs while
`elapsed < timeout`, inspects the status at the current time, returns on
`healthy` or `unhealthy`, and otherwise sleeps 5 time-units.  The budget
`timeout + 1` handed over by `waitForHealthyDockerContainer` exceeds the
at most `timeout / 5 + 1` iterations the loop can make, so the
budget-exhausted branch is unreachable from it. -/
def waitAux (status : Nat → String) (timeout : Nat) :
    Nat → Nat → Bool × Nat
  | 0, t => (false, t)
  | fuel + 1, t =>
    if t < timeout then
      if status t = "healthy" then (true, t)
      else if status t = "unhealthy" then (false, t)
      else waitAux status timeout fuel (t + 5)
    else (false, t)

/-- `wait_for_healthy_docker_container` (source lines 386-407): poll the
container's health at a fixed 5 time-unit interval until it is healthy
(`true`), unhealthy (`false`), or the timeout elapses (`false`).  Also
returns the elapsed time at which the loop stopped. -/
def waitForHealthyDockerContainer (status : Nat → String) (timeout : Nat) :
    Bool × Nat :=
  waitAux status timeout (timeout + 1) 0

/-- `update_docker_network` (source lines 337-383).  Line 345 reads
`self.config['docker_path']` before the inner `try`, so a missing key
raises `KeyError('docker_path')` out of the method (message modelled
without Python's quote decoration).  Otherwise: rewrite the `.env` file
(marking `update docker env` on success), restart the three containers,
then health-check gluetun, qbittorrent and prowlarr in that order,
raising on the first failure and marking `restart docker containers`
only after all three are healthy. -/
def updateDockerNetwork (cfg : Config) (port : String) (w : DockerWorld)
    (ledger : Ledger) : Except String Unit × Ledger × List Event :=
  match cfg.docker_path with
  | none => (Except.error "docker_path", ledger, [])
  | some _ =>
    match w.envContent with
    | none =>
      (Except.error ("Failed to update Docker .env file: " ++ fileErrText),
       ledger, [])
    | some content =>
      let ledger1 := pySetItem ledger "update docker env" "✅"
      let ev2 := [Event.dockerEnvWrite (updateDockerEnv port content),
                  Event.dockerRestart, Event.healthCheck "gluetun"]
      if (waitForHealthyDockerContainer (w.health "gluetun") 60).1 = false then
        (Except.error "Gluetun failed to become healthy", ledger1, ev2)
      else
        let ev3 := ev2 ++ [Event.healthCheck "qbittorrent"]
        if (waitForHealthyDockerContainer (w.health "qbittorrent") 60).1 = false then
          (Except.error "qBittorrent failed to become healthy", ledger1, ev3)
        else
          let ev4 := ev3 ++ [Event.healthCheck "prowlarr"]
          if (waitForHealthyDockerContainer (w.health "prowlarr") 60).1 = false then
            (Except.error "Prowlarr failed to become healthy", ledger1, ev4)
          else
            (Except.ok (),
             pySetItem ledger1 "restart docker containers" "✅", ev4)

/-- Behaviour of the webhook collaborator: `requests.post` either raises
(`error` with the exception text) or returns an HTTP status code. -/
structure NotifyWorld where
  post : Except String Nat

/-- Terminal state of `send_discord_notification`: skipped because no URL
is configured, delivered, or a delivery failure that was logged. -/
inductive NotifyResult where
  | skipped
  | sent
  | loggedFailure (message : String)
deriving DecidableEq, Repr

/-- `response.raise_for_status()`: convert a 4xx/5xx status into a raised
`HTTPError`. -/
def raiseForStatus (post : Except String Nat) : Except String Nat :=
  match post with
  | Except.error e => Except.error e
  | Except.ok code =>
    if 400 ≤ code then Except.error ("HTTP error " ++ toString code)
    else Except.ok code

/-- `send_discord_notification` (source lines 303-334): skip when no
webhook URL is configured; otherwise format and post the message; the
whole body is wrapped in `try/except Exception`, so every delivery
failure is logged and swallowed — reflected here in the raise-free
return type. -/
def sendDiscordNotification (cfg : Config) (w : NotifyWorld)
    (message : String) (isError : Bool) : NotifyResult × List Event :=
  match cfg.discord_webhook_url with
  | none => (NotifyResult.skipped, [])
  | some _ =>
    let emoji := if isError then "❌" else "✅"
    let formatted := emoji ++ " **Windscribe Port Manager**\n" ++ message
    let ev := [Event.discordPost formatted isError]
    match raiseForStatus w.post with
    | Except.ok _ => (NotifyResult.sent, ev)
    | Except.error e =>
      (NotifyResult.loggedFailure ("Failed to send Discord notification: " ++ e),
       ev)

/-- Combined collaborator behaviour for one run. -/
structure World where
  acq : AcqWorld
  qbt : QbtWorld
  docker : DockerWorld
  notify : NotifyWorld

/-- Step report of the success message (line 424): `f"{value} **{key}**"`
joined by newlines. -/
def statusInfoSuccess (ledger : Ledger) : String :=
  String.intercalate "\n" (ledger.map (fun p => p.2 ++ " **" ++ p.1 ++ "**"))

/-- Step report of the failure messages (lines 438, 448):
`f"{value} {key}"` joined by newlines. -/
def statusInfoError (ledger : Ledger) : String :=
  String.intercalate "\n" (ledger.map (fun p => p.2 ++ " " ++ p.1))

/-- `WindscribePortManager.run` (source lines 409-452): acquisition, then
qBittorrent synchronisation, then — unconditionally — the docker network
update; on success dispatch the success notification and return 0, on any
step's exception dispatch the failure notification and return 1.  The
`except ConfigurationError` arm is unreachable here because
`_load_config` runs in `__init__`, before `run` is ever called. -/
def runModel (cfg : Config) (ledger : Ledger) (w : World) :
    Nat × Ledger × List Event :=
  match getWindscribePort w.acq ledger with
  | (Except.error e, ledger1, ev1) =>
    let msg := "Error occurred:\n" ++ e ++ "\n\nStatus:\n" ++
      statusInfoError ledger1
    (1, ledger1, ev1 ++ (sendDiscordNotification cfg w.notify msg true).2)
  | (Except.ok port, ledger1, ev1) =>
    match updateQbittorrentPort port w.qbt ledger1 with
    | (Except.error e, ledger2, ev2) =>
      let msg := "Error occurred:\n" ++ e ++ "\n\nStatus:\n" ++
        statusInfoError ledger2
      (1, ledger2,
       ev1 ++ ev2 ++ (sendDiscordNotification cfg w.notify msg true).2)
    | (Except.ok _, ledger2, ev2) =>
      match updateDockerNetwork cfg port w.docker ledger2 with
      | (Except.error e, ledger3, ev3) =>
        let msg := "Error occurred:\n" ++ e ++ "\n\nStatus:\n" ++
          statusInfoError ledger3
        (1, ledger3,
         ev1 ++ ev2 ++ ev3 ++ (sendDiscordNotification cfg w.notify msg true).2)
      | (Except.ok _, ledger3, ev3) =>
        let msg := "Port forwarding updated successfully!\nNew port: **" ++
          port ++ "**\n\n" ++ statusInfoSuccess ledger3
        (0, ledger3,
         ev1 ++ ev2 ++ ev3 ++ (sendDiscordNotification cfg w.notify msg false).2)

/-- `main` (source lines 457-467): construct the manager — whose
`__init__` runs `_load_config` and may raise `ConfigurationError` — and
exit with `run`'s return value.  A `ConfigurationError` escapes the
constructor, so it reaches `main`'s generic `except Exception` handler,
which logs and exits 1 without any browser, network or webhook action
ever happening. -/
def mainModel (e : Env) (w : World) : Nat × Ledger × List Event :=
  match loadConfig e with
  | Except.error _ => (1, [], [])
  | Except.ok (cfg, ledger) => runModel cfg ledger w

/-- `Except.ok`-ness as a boolean, for stating ledger-update contracts. -/
def exceptOk {ε α : Type} : Except ε α → Bool
  | Except.ok _ => true
  | Except.error _ => false

/-- Browser behaviour of a fully successful acquisition: no challenge,
login succeeds, no pre-existing port, the provider issues port 40123. -/
def goodAcqWorld : AcqWorld :=
  { userFieldOnLoad := true
    userFieldAfterBypass := true
    loginOk := true
    loginErrorElemPresent := false
    loginErrorText := ""
    portPageLoads := true
    buttonText := "Request Matching Port"
    deleteInputAppears := true
    portElemAppears := true
    portText := "40123" }

/-- Same browser behaviour, but the port display shows the superscript
digit U+00B2. -/
def superscriptAcqWorld : AcqWorld := { goodAcqWorld with portText := "²" }

/-- A qBittorrent API that accepts the login. -/
def goodQbtWorld : QbtWorld := { loginOk := true, loginFailText := "" }

/-- A docker stack whose `.env` reads fine and whose containers are all
immediately healthy. -/
def healthyDockerWorld : DockerWorld :=
  { envContent := some "FIREWALL_VPN_INPUT_PORTS=1\n"
    health := fun _ _ => "healthy" }

/-- A docker stack where gluetun is immediately healthy but qbittorrent
reports unhealthy at every poll. -/
def qbtUnhealthyDockerWorld : DockerWorld :=
  { envContent := some "FIREWALL_VPN_INPUT_PORTS=1\n"
    health := fun c _ => if c = "gluetun" then "healthy" else "unhealthy" }

/-- A webhook endpoint that accepts the post. -/
def okNotifyWorld : NotifyWorld := { post := Except.ok 204 }

/-- Collaborators for a fully successful run. -/
def allGoodWorld : World :=
  { acq := goodAcqWorld
    qbt := goodQbtWorld
    docker := healthyDockerWorld
    notify := okNotifyWorld }

/-- Environment for C1's failing input: every required variable set, a
webhook configured, but `docker_path` unset. -/
def envNoDocker : Env :=
  { ws_username := some "user"
    ws_password := some "pw"
    qbt_username := some "admin"
    qbt_password := some "adminpw"
    qbt_host := some "localhost"
    qbt_port := some "8080"
    discord_webhook_url := some "https://discord.example/webhook"
    docker_path := none }

/-- Environment for C2's failing input: `qbt_password` missing while a
webhook endpoint is configured. -/
def envMissingQbtPw : Env := { envNoDocker with qbt_password := none }

/-- A full configuration with webhook and docker path, as `_load_config`
would produce it from a complete environment. -/
def cfgFull : Config :=
  { ws_username := "user"
    ws_password := "pw"
    qbt_username := "admin"
    qbt_password := "adminpw"
    qbt_host := "localhost"
    qbt_port := "8080"
    discord_webhook_url := some "https://discord.example/webhook"
    docker_path := some "/srv/stack" }

/-- The configuration `_load_config` produces from `envNoDocker`. -/
def cfgNoDocker : Config :=
  { ws_username := "user"
    ws_password := "pw"
    qbt_username := "admin"
    qbt_password := "adminpw"
    qbt_host := "localhost"
    qbt_port := "8080"
    discord_webhook_url := some "https://discord.example/webhook"
    docker_path := none }

/-- Browser behaviour with an existing port: the button reads
"Delete Port" and deletion succeeds. -/
def deleteAcqWorld : AcqWorld := { goodAcqWorld with buttonText := "Delete Port" }

/-- Browser behaviour where deletion of the existing port never reaches
the deleted state. -/
def deleteFailAcqWorld : AcqWorld :=
  { goodAcqWorld with buttonText := "Delete Port", deleteInputAppears := false }

theorem waitAux_done (status : Nat → String) (timeout fuel t : Nat)
    (h : ¬ t < timeout) : waitAux status timeout fuel t = (false, t) := by
  cases fuel <;> simp [waitAux, h]

theorem waitAux_healthy (status : Nat → String) (timeout fuel t : Nat)
    (h1 : t < timeout) (h2 : status t = "healthy") :
    waitAux status timeout (fuel + 1) t = (true, t) := by
  simp [waitAux, h1, h2]

theorem waitAux_unhealthy (status : Nat → String) (timeout fuel t : Nat)
    (h1 : t < timeout) (h2 : status t = "unhealthy") :
    waitAux status timeout (fuel + 1) t = (false, t) := by
  simp [waitAux, h1, h2]

theorem waitAux_step (status : Nat → String) (timeout fuel t : Nat)
    (h1 : t < timeout) (h2 : status t ≠ "healthy")
    (h3 : status t ≠ "unhealthy") :
    waitAux status timeout (fuel + 1) t = waitAux status timeout fuel (t + 5) := by
  simp [waitAux, h1, h2, h3]

/-- C1: the claim says `run` performs acquisition, then the qBittorrent
update, and the docker network update only when `docker_path` is
configured, completing without any network-stack operation otherwise.
The code calls `update_docker_network` unconditionally (line 419), so
with every required variable set but `docker_path` unset — and both
earlier steps succeeding — the lookup `self.config['docker_path']`
raises `KeyError` and the run exits 1 instead of completing: the event
trace below shows acquisition then synchronisation in order, followed by
the failure notification carrying the `KeyError` text. -/
theorem c1_run_docker_unconditional :
    mainModel envNoDocker allGoodWorld =
      (1,
       [("new windscribe port", "✅"), ("update qbittorrent port", "✅")],
       [Event.openLogin, Event.submitLogin, Event.openPortPage,
        Event.clickRequest, Event.readPort, Event.qbtLogin,
        Event.qbtSetListenPort 40123,
        Event.discordPost
          ("❌ **Windscribe Port Manager**\nError occurred:\ndocker_path" ++
           "\n\nStatus:\n✅ new windscribe port\n✅ update qbittorrent port")
          true]) := by
  decide

/-- C2: with `qbt_password` missing and a reachable webhook configured,
`_load_config` raises the configuration error inside `__init__`, before
any browser or network action (the event trace is empty) — but the error
is never reported through the notification collaborator: `main`'s generic
handler exits 1 without posting, because the notifying
`except ConfigurationError` arm in `run` is unreachable. -/
theorem c2_config_error_not_notified :
    loadConfig envMissingQbtPw =
      Except.error "Missing required environment variables: qbt_password"
    ∧ envTruthy envMissingQbtPw.discord_webhook_url = true
    ∧ mainModel envMissingQbtPw allGoodWorld = (1, [], []) :=
  ⟨rfl, rfl, rfl⟩

/-- C10: `str.isdigit` does not guarantee that `int(port)` succeeds: the
superscript digit U+00B2 passes the acquisition step's validation but
`int` rejects it, so `update_qbittorrent_port` raises `ValueError` on a
validated port. -/
theorem c10_isdigit_does_not_imply_int :
    pyIsDigit "²" = true ∧ pyIntParse "²" = none ∧
    updateQbittorrentPort "²" goodQbtWorld (initialLedger false) =
      (Except.error "invalid literal for int() with base 10: ²",
       initialLedger false, [Event.qbtLogin]) :=
  ⟨rfl, rfl, rfl⟩

/-- C3 counterexample: the captured text "²" (already trimmed) is not
composed solely of decimal digits, yet the acquisition step returns it as
a valid port, because `str.isdigit` also accepts superscript digits — so
"accepted iff non-empty and composed solely of decimal digits" fails in
the only-if direction. -/
theorem c3_counterexample :
    (getWindscribePort superscriptAcqWorld (initialLedger false)).1 =
      Except.ok "²"
    ∧ specDecimalAccept "²" = false :=
  ⟨rfl, rfl⟩

/-- C3 (amended): under a browser behaviour that reaches validation, the
acquisition step returns the trimmed captured text as a valid port iff
`str.isdigit` accepts it (non-empty and every character a Unicode digit
character — decimal digits or digit-typed characters such as
superscripts); any other text raises the `Invalid port received`
validation failure, never a coerced number. -/
theorem c3_validation (w : AcqWorld) (ledger : Ledger)
    (h1 : w.userFieldOnLoad = true) (h2 : w.loginOk = true)
    (h3 : w.portPageLoads = true) (h4 : w.portElemAppears = true)
    (h5 : w.buttonText = "Delete Port" → w.deleteInputAppears = true) :
    ((getWindscribePort w ledger).1 = Except.ok (pyStrip w.portText) ↔
      pyIsDigit (pyStrip w.portText) = true)
    ∧ (pyIsDigit (pyStrip w.portText) = false →
      (getWindscribePort w ledger).1 =
        Except.error ("Invalid port received: " ++ pyStrip w.portText)) := by
  by_cases hb : w.buttonText = "Delete Port"
  · have hd := h5 hb
    cases hv : pyIsDigit (pyStrip w.portText) <;>
      simp [getWindscribePort, finishRequest, h1, h2, h3, h4, hb, hd, hv]
  · cases hv : pyIsDigit (pyStrip w.portText) <;>
      simp [getWindscribePort, finishRequest, h1, h2, h3, h4, hb, hv]

theorem c3_witness :
    ((getWindscribePort goodAcqWorld (initialLedger false)).1 =
        Except.ok (pyStrip goodAcqWorld.portText) ↔
      pyIsDigit (pyStrip goodAcqWorld.portText) = true)
    ∧ (pyIsDigit (pyStrip goodAcqWorld.portText) = false →
      (getWindscribePort goodAcqWorld (initialLedger false)).1 =
        Except.error ("Invalid port received: " ++ pyStrip goodAcqWorld.portText)) :=
  c3_validation goodAcqWorld (initialLedger false) rfl rfl rfl rfl
    (fun h => absurd h (by decide))

/-- C4: under a browser behaviour that reaches the lifecycle
reconciliation, a "Delete Port" label always yields delete-then-request
(and when the deleted state is never observed, the method fails without
ever clicking request — never request-only); any other label yields
request-only. -/
theorem c4_lifecycle (w : AcqWorld) (ledger : Ledger)
    (h1 : w.userFieldOnLoad = true) (h2 : w.loginOk = true)
    (h3 : w.portPageLoads = true) (h4 : w.portElemAppears = true) :
    (w.buttonText = "Delete Port" → w.deleteInputAppears = true →
      (getWindscribePort w ledger).2.2 =
        [Event.openLogin, Event.submitLogin, Event.openPortPage,
         Event.clickDelete, Event.clickRequest, Event.readPort])
    ∧ (w.buttonText = "Delete Port" → w.deleteInputAppears = false →
      getWindscribePort w ledger =
        (Except.error "Failed to delete existing port", ledger,
         [Event.openLogin, Event.submitLogin, Event.openPortPage,
          Event.clickDelete]))
    ∧ (w.buttonText ≠ "Delete Port" →
      (getWindscribePort w ledger).2.2 =
        [Event.openLogin, Event.submitLogin, Event.openPortPage,
         Event.clickRequest, Event.readPort]) := by
  refine ⟨?_, ?_, ?_⟩
  · intro hb hd
    cases hv : pyIsDigit (pyStrip w.portText) <;>
      simp [getWindscribePort, finishRequest, h1, h2, h3, h4, hb, hd, hv]
  · intro hb hd
    simp [getWindscribePort, finishRequest, h1, h2, h3, h4, hb, hd]
  · intro hb
    cases hv : pyIsDigit (pyStrip w.portText) <;>
      simp [getWindscribePort, finishRequest, h1, h2, h3, h4, hb, hv]

theorem c4_witness :
    (getWindscribePort deleteAcqWorld (initialLedger false)).2.2 =
      [Event.openLogin, Event.submitLogin, Event.openPortPage,
       Event.clickDelete, Event.clickRequest, Event.readPort]
    ∧ getWindscribePort deleteFailAcqWorld (initialLedger false) =
      (Except.error "Failed to delete existing port", initialLedger false,
       [Event.openLogin, Event.submitLogin, Event.openPortPage,
        Event.clickDelete])
    ∧ (getWindscribePort goodAcqWorld (initialLedger false)).2.2 =
      [Event.openLogin, Event.submitLogin, Event.openPortPage,
       Event.clickRequest, Event.readPort] :=
  ⟨(c4_lifecycle deleteAcqWorld (initialLedger false) rfl rfl rfl rfl).1 rfl rfl,
   (c4_lifecycle deleteFailAcqWorld (initialLedger false) rfl rfl rfl rfl).2.1 rfl rfl,
   (c4_lifecycle goodAcqWorld (initialLedger false) rfl rfl rfl rfl).2.2 (by decide)⟩

/-- C6: the health poll runs at a fixed 5 time-unit interval with a 60
time-unit timeout: a service healthy at its very first poll completes
immediately (elapsed time 0, within one interval tick) with a healthy
result, and a service that never reports healthy or unhealthy within the
timeout yields the timeout failure at 60 — never healthy. -/
theorem c6_health_poll (status : Nat → String) :
    (status 0 = "healthy" →
      waitForHealthyDockerContainer status 60 = (true, 0))
    ∧ ((∀ t, t < 60 → status t ≠ "healthy" ∧ status t ≠ "unhealthy") →
      waitForHealthyDockerContainer status 60 = (false, 60)) := by
  constructor
  · intro h
    show waitAux status 60 (60 + 1) 0 = (true, 0)
    exact waitAux_healthy status 60 60 0 (by omega) h
  · intro h
    show waitAux status 60 (60 + 1) 0 = (false, 60)
    rw [waitAux_step status 60 60 0 (by omega) (h 0 (by omega)).1 (h 0 (by omega)).2]
    show waitAux status 60 (59 + 1) 5 = (false, 60)
    rw [waitAux_step status 60 59 5 (by omega) (h 5 (by omega)).1 (h 5 (by omega)).2]
    show waitAux status 60 (58 + 1) 10 = (false, 60)
    rw [waitAux_step status 60 58 10 (by omega) (h 10 (by omega)).1 (h 10 (by omega)).2]
    show waitAux status 60 (57 + 1) 15 = (false, 60)
    rw [waitAux_step status 60 57 15 (by omega) (h 15 (by omega)).1 (h 15 (by omega)).2]
    show waitAux status 60 (56 + 1) 20 = (false, 60)
    rw [waitAux_step status 60 56 20 (by omega) (h 20 (by omega)).1 (h 20 (by omega)).2]
    show waitAux status 60 (55 + 1) 25 = (false, 60)
    rw [waitAux_step status 60 55 25 (by omega) (h 25 (by omega)).1 (h 25 (by omega)).2]
    show waitAux status 60 (54 + 1) 30 = (false, 60)
    rw [waitAux_step status 60 54 30 (by omega) (h 30 (by omega)).1 (h 30 (by omega)).2]
    show waitAux status 60 (53 + 1) 35 = (false, 60)
    rw [waitAux_step status 60 53 35 (by omega) (h 35 (by omega)).1 (h 35 (by omega)).2]
    show waitAux status 60 (52 + 1) 40 = (false, 60)
    rw [waitAux_step status 60 52 40 (by omega) (h 40 (by omega)).1 (h 40 (by omega)).2]
    show waitAux status 60 (51 + 1) 45 = (false, 60)
    rw [waitAux_step status 60 51 45 (by omega) (h 45 (by omega)).1 (h 45 (by omega)).2]
    show waitAux status 60 (50 + 1) 50 = (false, 60)
    rw [waitAux_step status 60 50 50 (by omega) (h 50 (by omega)).1 (h 50 (by omega)).2]
    show waitAux status 60 (49 + 1) 55 = (false, 60)
    rw [waitAux_step status 60 49 55 (by omega) (h 55 (by omega)).1 (h 55 (by omega)).2]
    exact waitAux_done status 60 49 60 (by omega)

theorem c6_witness :
    waitForHealthyDockerContainer (fun _ => "healthy") 60 = (true, 0)
    ∧ waitForHealthyDockerContainer (fun _ => "starting") 60 = (false, 60) :=
  ⟨(c6_health_poll (fun _ => "healthy")).1 rfl,
   (c6_health_poll (fun _ => "starting")).2 (fun _ _ => ⟨by decide, by decide⟩)⟩

/-- C7: during the network-stack update the services are health-checked
in the fixed order gluetun, qbittorrent, prowlarr; when gluetun is
healthy and qbittorrent reports unhealthy, the method fails with the
message naming qBittorrent, the event trace stops after the qbittorrent
check (prowlarr is never polled), and the surrounding run exits 1. -/
theorem c7_first_unhealthy_aborts (cfg : Config) (p port content : String)
    (w : DockerWorld) (ledger : Ledger) (nw : NotifyWorld)
    (hd : cfg.docker_path = some p) (he : w.envContent = some content)
    (hg : w.health "gluetun" 0 = "healthy")
    (hq : ∀ t, w.health "qbittorrent" t = "unhealthy") :
    updateDockerNetwork cfg port w ledger =
      (Except.error "qBittorrent failed to become healthy",
       pySetItem ledger "update docker env" "✅",
       [Event.dockerEnvWrite (updateDockerEnv port content),
        Event.dockerRestart, Event.healthCheck "gluetun",
        Event.healthCheck "qbittorrent"])
    ∧ (runModel cfg (initialLedger true)
        { acq := goodAcqWorld, qbt := goodQbtWorld, docker := w,
          notify := nw }).1 = 1 := by
  have hgw : waitForHealthyDockerContainer (w.health "gluetun") 60 = (true, 0) := by
    show waitAux (w.health "gluetun") 60 (60 + 1) 0 = (true, 0)
    exact waitAux_healthy _ 60 60 0 (by omega) hg
  have hqw : waitForHealthyDockerContainer (w.health "qbittorrent") 60 = (false, 0) := by
    show waitAux (w.health "qbittorrent") 60 (60 + 1) 0 = (false, 0)
    exact waitAux_unhealthy _ 60 60 0 (by omega) (hq 0)
  have key : ∀ (pt : String) (l : Ledger), updateDockerNetwork cfg pt w l =
      (Except.error "qBittorrent failed to become healthy",
       pySetItem l "update docker env" "✅",
       [Event.dockerEnvWrite (updateDockerEnv pt content),
        Event.dockerRestart, Event.healthCheck "gluetun",
        Event.healthCheck "qbittorrent"]) := by
    intro pt l
    simp [updateDockerNetwork, hd, he, hgw, hqw]
  refine ⟨key port ledger, ?_⟩
  have ha : getWindscribePort goodAcqWorld (initialLedger true) =
      (Except.ok "40123",
       [("new windscribe port", "✅"), ("update qbittorrent port", "❌"),
        ("update docker env", "❌"), ("restart docker containers", "❌")],
       [Event.openLogin, Event.submitLogin, Event.openPortPage,
        Event.clickRequest, Event.readPort]) := rfl
  have hb : updateQbittorrentPort "40123" goodQbtWorld
      [("new windscribe port", "✅"), ("update qbittorrent port", "❌"),
       ("update docker env", "❌"), ("restart docker containers", "❌")] =
      (Except.ok (),
       [("new windscribe port", "✅"), ("update qbittorrent port", "✅"),
        ("update docker env", "❌"), ("restart docker containers", "❌")],
       [Event.qbtLogin, Event.qbtSetListenPort 40123]) := rfl
  simp [runModel, ha, hb, key]

theorem c7_witness :
    updateDockerNetwork cfgFull "40123" qbtUnhealthyDockerWorld (initialLedger true) =
      (Except.error "qBittorrent failed to become healthy",
       pySetItem (initialLedger true) "update docker env" "✅",
       [Event.dockerEnvWrite (updateDockerEnv "40123" "FIREWALL_VPN_INPUT_PORTS=1\n"),
        Event.dockerRestart, Event.healthCheck "gluetun",
        Event.healthCheck "qbittorrent"])
    ∧ (runModel cfgFull (initialLedger true)
        { acq := goodAcqWorld, qbt := goodQbtWorld,
          docker := qbtUnhealthyDockerWorld, notify := okNotifyWorld }).1 = 1 :=
  c7_first_unhealthy_aborts cfgFull "/srv/stack" "40123"
    "FIREWALL_VPN_INPUT_PORTS=1\n" qbtUnhealthyDockerWorld
    (initialLedger true) okNotifyWorld rfl rfl rfl (fun _ => rfl)

/-- C5 counterexample: on a file whose single line uses a CRLF ending and
does not start with the target key, the rewrite does not preserve that
line verbatim — text-mode reading normalises the CRLF to LF — so
"preserving every other line verbatim" fails for arbitrary input
content. -/
theorem c5_counterexample :
    updateDockerEnv "40123" "A=1\r\n" = "A=1\n"
    ∧ ("A=1\n" : String) ≠ "A=1\r\n"
    ∧ targetKeyL.isPrefixOf "A=1\r\n".data = false :=
  ⟨rfl, by decide, rfl⟩


theorem runModel_notify_independent (cfg : Config) (l : Ledger) (w : World)
    (n₁ n₂ : NotifyWorld) :
    (runModel cfg l { w with notify := n₁ }).1 =
      (runModel cfg l { w with notify := n₂ }).1
    ∧ (runModel cfg l { w with notify := n₁ }).2.1 =
      (runModel cfg l { w with notify := n₂ }).2.1 := by
  rcases hA : getWindscribePort w.acq l with ⟨res, l1, e1⟩
  cases res with
  | error e => simp [runModel, hA]
  | ok port =>
    rcases hB : updateQbittorrentPort port w.qbt l1 with ⟨res2, l2, e2⟩
    cases res2 with
    | error e => simp [runModel, hA, hB]
    | ok u =>
      rcases hC : updateDockerNetwork cfg port w.docker l2 with ⟨res3, l3, e3⟩
      cases res3 <;> simp [runModel, hA, hB, hC]

/-- C8: notification dispatch never escalates.  A missing webhook URL is
skipped; a raising `requests.post` and a 4xx/5xx status from
`raise_for_status` are both caught, logged and swallowed (the function's
raise-free return type mirrors the all-catching `except` around the
body); consequently the exit code and final ledger of a run are
independent of the webhook collaborator's behaviour. -/
theorem c8_notify_never_escalates :
    (∀ (cfg : Config) (l : Ledger) (w : World) (n₁ n₂ : NotifyWorld),
      (runModel cfg l { w with notify := n₁ }).1 =
        (runModel cfg l { w with notify := n₂ }).1
      ∧ (runModel cfg l { w with notify := n₁ }).2.1 =
        (runModel cfg l { w with notify := n₂ }).2.1)
    ∧ (∀ (cfg : Config) (w : NotifyWorld) (m : String) (e : Bool),
        cfg.discord_webhook_url = none →
        sendDiscordNotification cfg w m e = (NotifyResult.skipped, []))
    ∧ (∀ (cfg : Config) (url m er : String) (e : Bool),
        cfg.discord_webhook_url = some url →
        (sendDiscordNotification cfg { post := Except.error er } m e).1 =
          NotifyResult.loggedFailure
            ("Failed to send Discord notification: " ++ er))
    ∧ (∀ (cfg : Config) (url m : String) (e : Bool) (code : Nat),
        cfg.discord_webhook_url = some url → 400 ≤ code →
        (sendDiscordNotification cfg { post := Except.ok code } m e).1 =
          NotifyResult.loggedFailure
            ("Failed to send Discord notification: " ++
              ("HTTP error " ++ toString code))) := by
  refine ⟨runModel_notify_independent, ?_, ?_, ?_⟩
  · intro cfg w m e h
    simp [sendDiscordNotification, h]
  · intro cfg url m er e h
    simp [sendDiscordNotification, raiseForStatus, h]
  · intro cfg url m e code h hc
    simp [sendDiscordNotification, raiseForStatus, h, hc]

theorem c8_witness :
    ((runModel cfgFull (initialLedger true)
        { allGoodWorld with notify := { post := Except.ok 204 } }).1 =
      (runModel cfgFull (initialLedger true)
        { allGoodWorld with notify := { post := Except.error "connection refused" } }).1)
    ∧ ((sendDiscordNotification cfgFull { post := Except.error "connection refused" }
          "hello" true).1 =
        NotifyResult.loggedFailure
          "Failed to send Discord notification: connection refused")
    ∧ ((sendDiscordNotification cfgFull { post := Except.ok 404 } "hello" false).1 =
        NotifyResult.loggedFailure
          "Failed to send Discord notification: HTTP error 404") :=
  ⟨(c8_notify_never_escalates.1 cfgFull (initialLedger true) allGoodWorld
      { post := Except.ok 204 } { post := Except.error "connection refused" }).1,
   c8_notify_never_escalates.2.2.1 cfgFull "https://discord.example/webhook"
     "hello" "connection refused" true rfl,
   c8_notify_never_escalates.2.2.2 cfgFull "https://discord.example/webhook"
     "hello" false 404 rfl (by decide)⟩

theorem envTruthy_isSome (o : Option String) (h : envTruthy o = true) :
    o.isSome = true := by
  cases o <;> simp_all [envTruthy]

theorem pyLookup_pySetItem_eq (l : Ledger) (k v : String) :
    pyLookup (pySetItem l k v) k = some v := by
  induction l with
  | nil => simp [pySetItem, pyLookup]
  | cons p rest ih =>
    obtain ⟨a, b⟩ := p
    by_cases h : a = k <;> simp [pySetItem, pyLookup, h, ih]

theorem pyLookup_pySetItem_ne (l : Ledger) (k v k' : String) (h : k' ≠ k) :
    pyLookup (pySetItem l k v) k' = pyLookup l k' := by
  induction l with
  | nil => simp [pySetItem, pyLookup, Ne.symm h]
  | cons p rest ih =>
    obtain ⟨a, b⟩ := p
    by_cases ha : a = k
    · subst ha
      simp [pySetItem, pyLookup, Ne.symm h]
    · simp [pySetItem, pyLookup, ha, ih]

/-- C9: the ledger contract of every operation. (1) `_load_config`
returns the ledger `initialLedger` determined purely by whether
`docker_path` is configured; (2)-(3) its two shapes: the fixed step
names in order, every entry at the failure mark; (4)-(6) each operation
returns the input ledger with exactly its own entry (for the docker
update, its own two entries) set to the success mark when it succeeds,
and leaves previously completed marks for other steps untouched on the
paths it does modify; on failure it performs at most the flips of the
sub-steps that did complete; (7) a flip touches no other key; (8) an
entry already at the success mark is never taken back by a flip. -/
theorem c9_ledger_contract :
    (∀ (e : Env) (cfg : Config) (l : Ledger),
      loadConfig e = Except.ok (cfg, l) →
        l = initialLedger cfg.docker_path.isSome)
    ∧ initialLedger false =
        [("new windscribe port", "❌"), ("update qbittorrent port", "❌")]
    ∧ initialLedger true =
        [("new windscribe port", "❌"), ("update qbittorrent port", "❌"),
         ("update docker env", "❌"), ("restart docker containers", "❌")]
    ∧ (∀ (w : AcqWorld) (l : Ledger),
        (exceptOk (getWindscribePort w l).1 = true →
          (getWindscribePort w l).2.1 =
            pySetItem l "new windscribe port" "✅")
        ∧ (exceptOk (getWindscribePort w l).1 = false →
          (getWindscribePort w l).2.1 = l))
    ∧ (∀ (port : String) (w : QbtWorld) (l : Ledger),
        (exceptOk (updateQbittorrentPort port w l).1 = true →
          (updateQbittorrentPort port w l).2.1 =
            pySetItem l "update qbittorrent port" "✅")
        ∧ (exceptOk (updateQbittorrentPort port w l).1 = false →
          (updateQbittorrentPort port w l).2.1 = l))
    ∧ (∀ (cfg : Config) (port : String) (w : DockerWorld) (l : Ledger),
        (exceptOk (updateDockerNetwork cfg port w l).1 = true →
          (updateDockerNetwork cfg port w l).2.1 =
            pySetItem (pySetItem l "update docker env" "✅")
              "restart docker containers" "✅")
        ∧ (exceptOk (updateDockerNetwork cfg port w l).1 = false →
          (updateDockerNetwork cfg port w l).2.1 = l ∨
            (updateDockerNetwork cfg port w l).2.1 =
              pySetItem l "update docker env" "✅"))
    ∧ (∀ (l : Ledger) (k v k' : String), k' ≠ k →
        pyLookup (pySetItem l k v) k' = pyLookup l k')
    ∧ (∀ (l : Ledger) (k k' : String), pyLookup l k' = some "✅" →
        pyLookup (pySetItem l k "✅") k' = some "✅") := by
  refine ⟨?_, rfl, rfl, ?_, ?_, ?_, ?_, ?_⟩
  · intro e cfg l h
    simp only [loadConfig] at h
    split at h
    · simp only [Except.ok.injEq, Prod.mk.injEq] at h
      obtain ⟨hcfg, hl⟩ := h
      subst hl
      rw [← hcfg]
      cases hb : envTruthy e.docker_path
      · simp [hb]
      · simp [hb, envTruthy_isSome e.docker_path hb]
    · simp at h
  · intro w l
    simp only [getWindscribePort, finishRequest]
    split_ifs <;> simp [exceptOk]
  · intro port w l
    simp only [updateQbittorrentPort]
    split_ifs with h
    · simp [exceptOk]
    · cases hp : pyIntParse port <;> simp [hp, exceptOk]
  · intro cfg port w l
    simp only [updateDockerNetwork]
    cases hd : cfg.docker_path with
    | none => simp [exceptOk]
    | some p =>
      cases he : w.envContent with
      | none => simp [exceptOk]
      | some content => split_ifs <;> simp [exceptOk]
  · intro l k v k' h
    exact pyLookup_pySetItem_ne l k v k' h
  · intro l k k' h
    by_cases hk : k' = k
    · subst hk
      exact pyLookup_pySetItem_eq l k' "✅"
    · rw [pyLookup_pySetItem_ne l k "✅" k' hk]
      exact h

theorem c9_witness :
    initialLedger false = initialLedger cfgNoDocker.docker_path.isSome
    ∧ (getWindscribePort goodAcqWorld (initialLedger false)).2.1 =
        pySetItem (initialLedger false) "new windscribe port" "✅"
    ∧ pyLookup (pySetItem (initialLedger false) "new windscribe port" "✅")
        "update qbittorrent port" =
      pyLookup (initialLedger false) "update qbittorrent port"
    ∧ pyLookup
        (pySetItem (pySetItem (initialLedger false) "new windscribe port" "✅")
          "update qbittorrent port" "✅") "new windscribe port" = some "✅" := by
  refine ⟨?_, ?_, ?_, ?_⟩
  · exact c9_ledger_contract.1 envNoDocker cfgNoDocker (initialLedger false) rfl
  · exact (c9_ledger_contract.2.2.2.1 goodAcqWorld (initialLedger false)).1 (by decide)
  · exact c9_ledger_contract.2.2.2.2.2.2.1 (initialLedger false)
      "new windscribe port" "✅" "update qbittorrent port" (by decide)
  · exact c9_ledger_contract.2.2.2.2.2.2.2
      (pySetItem (initialLedger false) "new windscribe port" "✅")
      "update qbittorrent port" "new windscribe port" (by decide)

theorem readlinesL_cons_ne (c : Char) (cs : List Char) (hc : c ≠ '\n') :
    readlinesL (c :: cs) =
      match readlinesL cs with
      | [] => [[c]]
      | l :: ls => (c :: l) :: ls := by
  simp only [readlinesL, if_neg hc]

theorem readlinesL_ne_nil (c : Char) (cs : List Char) :
    readlinesL (c :: cs) ≠ [] := by
  simp only [readlinesL]
  split
  · simp
  · split <;> simp

theorem readlinesL_eq_nil_iff (s : List Char) : readlinesL s = [] ↔ s = [] := by
  cases s with
  | nil => simp [readlinesL]
  | cons c cs => simp [readlinesL_ne_nil c cs]

theorem joinL_readlinesL (s : List Char) : joinL (readlinesL s) = s := by
  induction s with
  | nil => rfl
  | cons c cs ih =>
    simp only [readlinesL]
    by_cases h : c = '\n'
    · simp [h, joinL, ih]
    · simp only [if_neg h]
      cases hr : readlinesL cs with
      | nil =>
        have hcs : cs = [] := (readlinesL_eq_nil_iff cs).1 hr
        subst hcs
        simp [joinL]
      | cons l ls =>
        have step : joinL ((c :: l) :: ls) = c :: joinL (l :: ls) := by
          simp [joinL]
        rw [step, ← hr, ih]

theorem chainWF_cons (l : List Char) (ls : List (List Char)) (h1 : lineWF l)
    (h2 : l.getLast? = some '\n') (h3 : chainWF ls) : chainWF (l :: ls) := by
  cases ls with
  | nil => exact h1
  | cons l' ls' => exact ⟨h1, h2, h3⟩

theorem lineWF_cons (c : Char) (l : List Char) (hc : c ≠ '\n')
    (hl : lineWF l) : lineWF (c :: l) := by
  refine ⟨by simp, ?_⟩
  intro x hx
  cases l with
  | nil => exact absurd rfl hl.1
  | cons a t =>
    rw [List.dropLast_cons₂] at hx
    rcases List.mem_cons.1 hx with h | h
    · subst h; exact hc
    · exact hl.2 x h

theorem getLast?_cons_ne_nil (c : Char) (l : List Char) (h : l ≠ []) :
    (c :: l).getLast? = l.getLast? := by
  cases l with
  | nil => exact absurd rfl h
  | cons a t => exact List.getLast?_cons_cons

theorem readlinesL_chainWF (s : List Char) : chainWF (readlinesL s) := by
  induction s with
  | nil => trivial
  | cons c cs ih =>
    simp only [readlinesL]
    by_cases h : c = '\n'
    · simp only [if_pos h]
      exact chainWF_cons ['\n'] _ ⟨by simp, by simp⟩ (by simp) ih
    · simp only [if_neg h]
      cases hr : readlinesL cs with
      | nil => exact ⟨by simp, by simp⟩
      | cons l ls =>
        rw [hr] at ih
        cases ls with
        | nil =>
          have hl : lineWF l := ih
          exact lineWF_cons c l h hl
        | cons l' ls' =>
          obtain ⟨h1, h2, h3⟩ := ih
          exact chainWF_cons (c :: l) (l' :: ls') (lineWF_cons c l h h1)
            (by rw [getLast?_cons_ne_nil c l h1.1]; exact h2) h3

theorem readlinesL_append (l rest : List Char) (h1 : lineWF l)
    (h2 : l.getLast? = some '\n') :
    readlinesL (l ++ rest) = l :: readlinesL rest := by
  induction l with
  | nil => exact absurd rfl h1.1
  | cons c t ih =>
    cases t with
    | nil =>
      have hc : c = '\n' := by simpa using h2
      subst hc
      simp [readlinesL]
    | cons d t' =>
      have hc : c ≠ '\n' :=
        h1.2 c (by rw [List.dropLast_cons₂]; exact List.mem_cons_self c _)
      have h1' : lineWF (d :: t') := by
        refine ⟨by simp, ?_⟩
        intro x hx
        exact h1.2 x (by rw [List.dropLast_cons₂]; exact List.mem_cons_of_mem c hx)
      have h2' : (d :: t').getLast? = some '\n' := by
        rw [List.getLast?_cons_cons] at h2
        exact h2
      have ihh := ih h1' h2'
      simp only [List.cons_append] at ihh ⊢
      rw [readlinesL_cons_ne c (d :: (t' ++ rest)) hc, ihh]

theorem readlinesL_single (l : List Char) (h : lineWF l) :
    readlinesL l = [l] := by
  induction l with
  | nil => exact absurd rfl h.1
  | cons c t ih =>
    cases t with
    | nil => by_cases hc : c = '\n' <;> simp [readlinesL, hc]
    | cons d t' =>
      have hc : c ≠ '\n' :=
        h.2 c (by rw [List.dropLast_cons₂]; exact List.mem_cons_self c _)
      have h' : lineWF (d :: t') := by
        refine ⟨by simp, ?_⟩
        intro x hx
        exact h.2 x (by rw [List.dropLast_cons₂]; exact List.mem_cons_of_mem c hx)
      rw [readlinesL_cons_ne c (d :: t') hc, ih h']

theorem readlinesL_joinL (ls : List (List Char)) (h : chainWF ls) :
    readlinesL (joinL ls) = ls := by
  induction ls with
  | nil => rfl
  | cons l ls ih =>
    cases ls with
    | nil =>
      have hl : lineWF l := h
      show readlinesL (l ++ joinL []) = [l]
      simp only [joinL, List.append_nil]
      exact readlinesL_single l hl
    | cons l' ls' =>
      obtain ⟨h1, h2, h3⟩ := h
      show readlinesL (l ++ joinL (l' :: ls')) = l :: l' :: ls'
      rw [readlinesL_append l (joinL (l' :: ls')) h1 h2, ih h3]

theorem targetKeyL_not_lf : ∀ c ∈ targetKeyL, c ≠ '\n' := by decide

theorem targetKeyL_not_cr : ∀ c ∈ targetKeyL, c ≠ '\r' := by decide

theorem updLineL_lineWF (port l : List Char) (hp : ∀ c ∈ port, c ≠ '\n')
    (h : lineWF l) : lineWF (updLineL port l) := by
  unfold updLineL
  split
  · refine ⟨by simp, ?_⟩
    intro x hx
    rw [List.append_assoc, ← List.append_assoc, List.dropLast_concat] at hx
    rcases List.mem_append.1 hx with hm | hm
    · exact targetKeyL_not_lf x hm
    · exact hp x hm
  · exact h

theorem updLineL_getLast (port l : List Char) (h : l.getLast? = some '\n') :
    (updLineL port l).getLast? = some '\n' := by
  unfold updLineL
  split
  · rw [List.append_assoc, ← List.append_assoc]
    exact List.getLast?_concat _
  · exact h

theorem chainWF_map_updLineL (port : List Char) (ls : List (List Char))
    (hp : ∀ c ∈ port, c ≠ '\n') (h : chainWF ls) :
    chainWF (ls.map (updLineL port)) := by
  induction ls with
  | nil => trivial
  | cons l ls ih =>
    cases ls with
    | nil =>
      have hl : lineWF l := h
      exact updLineL_lineWF port l hp hl
    | cons l' ls' =>
      obtain ⟨h1, h2, h3⟩ := h
      exact chainWF_cons _ _ (updLineL_lineWF port l hp h1)
        (updLineL_getLast port l h2) (ih h3)

theorem nlTranslate_not_cr : ∀ (s : List Char), ∀ c ∈ nlTranslate s, c ≠ '\r' := by
  suffices H : ∀ (n : Nat) (s : List Char), s.length ≤ n →
      ∀ c ∈ nlTranslate s, c ≠ '\r' by
    intro s
    exact H s.length s le_rfl
  intro n
  induction n with
  | zero =>
    intro s hs c hc
    have hnil : s = [] := List.length_eq_zero.1 (Nat.le_zero.1 hs)
    subst hnil
    simp [nlTranslate] at hc
  | succ n ih =>
    intro s hs c hc
    cases s with
    | nil => simp [nlTranslate] at hc
    | cons a t =>
      cases t with
      | nil =>
        by_cases ha : a = '\r'
        · simp only [nlTranslate, if_pos ha, List.mem_singleton] at hc
          subst hc
          decide
        · simp only [nlTranslate, if_neg ha, List.mem_singleton] at hc
          subst hc
          exact ha
      | cons b t' =>
        simp only [nlTranslate] at hc
        by_cases ha : a = '\r'
        · by_cases hb : b = '\n'
          · simp only [if_pos ha, if_pos hb, List.mem_cons] at hc
            rcases hc with hc | hc
            · subst hc; decide
            · exact ih t' (by simp at hs; omega) c hc
          · simp only [if_pos ha, if_neg hb, List.mem_cons] at hc
            rcases hc with hc | hc
            · subst hc; decide
            · exact ih (b :: t') (by simp at hs ⊢; omega) c hc
        · simp only [if_neg ha, List.mem_cons] at hc
          rcases hc with hc | hc
          · subst hc; exact ha
          · exact ih (b :: t') (by simp at hs ⊢; omega) c hc

theorem nlTranslate_eq_self : ∀ (s : List Char),
    (∀ c ∈ s, c ≠ '\r') → nlTranslate s = s := by
  suffices H : ∀ (n : Nat) (s : List Char), s.length ≤ n →
      (∀ c ∈ s, c ≠ '\r') → nlTranslate s = s by
    intro s
    exact H s.length s le_rfl
  intro n
  induction n with
  | zero =>
    intro s hs _
    have hnil : s = [] := List.length_eq_zero.1 (Nat.le_zero.1 hs)
    subst hnil
    rfl
  | succ n ih =>
    intro s hs hcr
    cases s with
    | nil => rfl
    | cons a t =>
      have ha : a ≠ '\r' := hcr a (List.mem_cons_self a t)
      cases t with
      | nil => simp [nlTranslate, ha]
      | cons b t' =>
        simp only [nlTranslate, if_neg ha]
        congr 1
        exact ih (b :: t') (by simp at hs ⊢; omega)
          (fun c hc => hcr c (List.mem_cons_of_mem a hc))

theorem mem_joinL {c : Char} {ls : List (List Char)} :
    c ∈ joinL ls ↔ ∃ l ∈ ls, c ∈ l := by
  induction ls with
  | nil => simp [joinL]
  | cons l ls ih => simp [joinL, List.mem_append, ih]

theorem updateDockerEnvL_not_cr (port content : List Char)
    (hp : ∀ c ∈ port, c ≠ '\r') :
    ∀ c ∈ updateDockerEnvL port content, c ≠ '\r' := by
  intro c hc
  unfold updateDockerEnvL at hc
  rw [mem_joinL] at hc
  obtain ⟨l', hl', hcl⟩ := hc
  rw [List.mem_map] at hl'
  obtain ⟨l, hl, hupd⟩ := hl'
  subst hupd
  unfold updLineL at hcl
  split at hcl
  · rw [List.append_assoc, List.mem_append, List.mem_append] at hcl
    rcases hcl with hm | hm | hm
    · exact targetKeyL_not_cr c hm
    · exact hp c hm
    · rw [List.mem_singleton] at hm
      subst hm
      decide
  · have hsrc : c ∈ nlTranslate content := by
      have hj := mem_joinL.2 ⟨l, hl, hcl⟩
      rwa [joinL_readlinesL] at hj
    exact nlTranslate_not_cr content c hsrc

theorem updateDockerEnvL_lines (port content : List Char)
    (hpn : ∀ c ∈ port, c ≠ '\n') (hpr : ∀ c ∈ port, c ≠ '\r') :
    readlinesL (nlTranslate (updateDockerEnvL port content)) =
      (readlinesL (nlTranslate content)).map (updLineL port) := by
  rw [nlTranslate_eq_self _ (updateDockerEnvL_not_cr port content hpr)]
  unfold updateDockerEnvL
  exact readlinesL_joinL _
    (chainWF_map_updLineL port _ hpn (readlinesL_chainWF (nlTranslate content)))

theorem isPrefixOf_append (l x : List Char) : l.isPrefixOf (l ++ x) = true := by
  induction l with
  | nil => simp [List.isPrefixOf]
  | cons a t ih => simp [List.isPrefixOf, ih]

theorem updLineL_idem (port l : List Char) :
    updLineL port (updLineL port l) = updLineL port l := by
  by_cases h : targetKeyL.isPrefixOf l = true
  · have hpre : targetKeyL.isPrefixOf (targetKeyL ++ port ++ ['\n']) = true := by
      rw [List.append_assoc]
      exact isPrefixOf_append targetKeyL (port ++ ['\n'])
    simp only [updLineL, if_pos h, if_pos hpre]
  · simp only [updLineL, if_neg h]

theorem updateDockerEnvL_idem (port content : List Char)
    (hpn : ∀ c ∈ port, c ≠ '\n') (hpr : ∀ c ∈ port, c ≠ '\r') :
    updateDockerEnvL port (updateDockerEnvL port content) =
      updateDockerEnvL port content := by
  rw [show updateDockerEnvL port (updateDockerEnvL port content) =
      joinL ((readlinesL (nlTranslate (updateDockerEnvL port content))).map
        (updLineL port)) from rfl]
  rw [updateDockerEnvL_lines port content hpn hpr, List.map_map]
  have hfun : updLineL port ∘ updLineL port = updLineL port :=
    funext (updLineL_idem port)
  rw [hfun]
  rfl

/-- C5 (amended): for every port value drawn from the validated port
domain (digit characters only, hence free of LF and CR), re-reading the
rewritten file yields exactly the original lines with each line matching
the `FIREWALL_VPN_INPUT_PORTS=` key replaced by the key and the new port
and every other line kept verbatim in original order, and the rewrite is
idempotent — where the original lines are those produced by text-mode
reading, whose universal-newline decoding already normalises CRLF/CR
endings to LF (the counterexample shows raw CRLF content is not preserved
byte-for-byte). -/
theorem c5_env_rewrite (port content : String)
    (hp : ∀ c ∈ port.data, c ≠ '\n' ∧ c ≠ '\r') :
    readlinesS (updateDockerEnv port content) =
      (readlinesS content).map (updLineS port)
    ∧ updateDockerEnv port (updateDockerEnv port content) =
        updateDockerEnv port content := by
  have hpn : ∀ c ∈ port.data, c ≠ '\n' := fun c hc => (hp c hc).1
  have hpr : ∀ c ∈ port.data, c ≠ '\r' := fun c hc => (hp c hc).2
  constructor
  · show (readlinesL (nlTranslate (updateDockerEnvL port.data content.data))).map
        String.mk =
      ((readlinesL (nlTranslate content.data)).map String.mk).map (updLineS port)
    rw [updateDockerEnvL_lines port.data content.data hpn hpr,
      List.map_map, List.map_map]
    rfl
  · exact congrArg String.mk (updateDockerEnvL_idem port.data content.data hpn hpr)

theorem c5_witness :
    readlinesS (updateDockerEnv "40123"
        "FOO=1\nFIREWALL_VPN_INPUT_PORTS=2\nBAR=x\n") =
      (readlinesS "FOO=1\nFIREWALL_VPN_INPUT_PORTS=2\nBAR=x\n").map
        (updLineS "40123")
    ∧ updateDockerEnv "40123"
        (updateDockerEnv "40123" "FOO=1\nFIREWALL_VPN_INPUT_PORTS=2\nBAR=x\n") =
      updateDockerEnv "40123" "FOO=1\nFIREWALL_VPN_INPUT_PORTS=2\nBAR=x\n" :=
  c5_env_rewrite "40123" "FOO=1\nFIREWALL_VPN_INPUT_PORTS=2\nBAR=x\n" (by decide)
